import Mathlib

/-!
REWRDS scoring engine — shallow embedding.

A shallow embedding of the REWRDS credit-card scoring engine
(`src/scoring/scoringEngine.js`, the state-aware variant whose main
entry point is `scoreCards`, together with its helpers
`mapCreditScore`, `getPointValue`, `getRewardRateForCategory`,
`estimateYearlyRewards`, `normalizeGoalTags`, the preference scorers
and the aggregator).  JavaScript numbers are modelled as rationals
(`ℚ`); optional / possibly-non-numeric fields are modelled as `Option`
values, where `none` stands for "absent or not of the expected type"
(the code always guards such reads with `typeof`/`Array.isArray`
checks or `||` defaults).  `Array.prototype.sort` with comparator
`(a, b) => b.score - a.score` is modelled as a stable merge sort with
the relation `b.score ≤ a.score`, matching the ECMAScript requirement
that `sort` is stable.
-/

namespace Rewrds

/-- `needle` occurs as a contiguous run inside `hay`. -/
def charsContain (hay needle : List Char) : Bool :=
  needle.isPrefixOf hay ||
    match hay with
    | [] => false
    | _ :: t => charsContain t needle

/-- JavaScript `a.includes(b)` on strings: `b` occurs as a contiguous
substring of `a`. -/
def jsIncludes (a b : String) : Bool :=
  charsContain a.toList b.toList

/-- JavaScript `s.toLowerCase()` (ASCII, which covers every string
literal in the engine), applied characterwise. -/
def lower (s : String) : String :=
  ⟨s.toList.map Char.toLower⟩

/-- JavaScript `s.trim()`: strip whitespace from both ends. -/
def jsTrim (s : String) : String :=
  ⟨((s.toList.dropWhile Char.isWhitespace).reverse.dropWhile Char.isWhitespace).reverse⟩

/-- JavaScript `Math.round`: round half towards positive infinity. -/
def jsRound (q : ℚ) : Int :=
  ⌊q + 1/2⌋

/-- JavaScript `parseFloat(x.toFixed(2))`: round to two decimal places,
ties towards positive infinity. -/
def round2 (q : ℚ) : ℚ :=
  ((⌊q * 100 + 1/2⌋ : Int) : ℚ) / 100

/-- JS number rendering inside template literals.  Every value the
claims exercise is an integer; integers are rendered exactly as JS
does, other rationals keep Lean's rendering. -/
def numStr (q : ℚ) : String :=
  if q.den = 1 then toString q.num else toString q

/-- One entry of a card's `rewards` array. -/
structure Reward where
  category : Option String := none
  rate : Option ℚ := none
deriving DecidableEq

/-- A card's `sign_up_bonus` object. -/
structure SignUpBonus where
  value_estimate : Option ℚ := none
deriving DecidableEq

/-- A card's `quiz_metadata` object. -/
structure QuizMetadata where
  local_only : Option Bool := none
  region_priority : Option String := none
  recommended_for : Option (List String) := none
  manual_tags : Option (List String) := none
deriving DecidableEq

/-- A card record, with exactly the fields the scoring engine reads
(plus `name` for identification).  `none` = absent/ill-typed. -/
structure Card where
  name : Option String := none
  visibility : Option Bool := none
  availability_status : Option String := none
  available_regions : Option (List String) := none
  min_credit_score : Option ℚ := none
  annual_fee : Option ℚ := none
  foreign_fees : Option String := none
  rewards : Option (List Reward) := none
  point_value_baseline : Option ℚ := none
  point_value_max : Option ℚ := none
  sign_up_bonus : Option SignUpBonus := none
  recommended_goals : Option (List String) := none
  credits_and_benefits : Option (List String) := none
  transfer_partners : Option (List String) := none
  pairing_synergy : Option (List String) := none
  is_business : Option Bool := none
  intro_apr : Option String := none
  ongoing_apr : Option String := none
  quiz_metadata : Option QuizMetadata := none
deriving DecidableEq

/-- The flat quiz-answer object. -/
structure AnswerRecord where
  state : Option String := none
  creditScore : Option String := none
  redemption_value : Option String := none
  spendGroceries : Option ℚ := none
  spendDining : Option ℚ := none
  spendTravel : Option ℚ := none
  spendGas : Option ℚ := none
  spendEVCharging : Option ℚ := none
  spendTransit : Option ℚ := none
  spendOnline : Option ℚ := none
  spendRent : Option ℚ := none
  spendEntertainment : Option ℚ := none
  spendUtilities : Option ℚ := none
  spendOther : Option ℚ := none
  goal : Option String := none
  annualFee : Option String := none
  travelFrequency : Option String := none
  perks : Option (List String) := none
  cardStrategy : Option String := none
  businessCards : Option String := none
  airline : Option (List String) := none
  hotel : Option (List String) := none
  grocery : Option (List String) := none
  gas : Option (List String) := none
  onlineShopping : Option (List String) := none
deriving DecidableEq

/-- One entry of the output: the source card plus `score` and
`reasons` (`{...card, score, reasons}` in the source). -/
structure ScoreResult where
  card : Card
  score : ℚ
  reasons : List String
deriving DecidableEq

/-- `mapCreditScore`: the fixed credit-tier table; anything else maps
to 0 via `map[range] || 0`. -/
def mapCreditScore (range : Option String) : ℚ :=
  match range with
  | some "poor" => 550
  | some "fair" => 630
  | some "good" => 700
  | some "very_good" => 740
  | some "excellent" => 800
  | _ => 0

/-- `getPointValue(effort, base, max)`. -/
def getPointValue (effort : Option String) (base max : Option ℚ) : ℚ :=
  let baseline : ℚ :=
    match base with
    | some b => if 0 < b then b else 1/100
    | none => 1/100
  let maxVal : ℚ :=
    match max with
    | some m => if 0 < m then m else baseline * (3/2)
    | none => baseline * (3/2)
  if effort = some "yes" then maxVal
  else if effort = some "sometimes" then (baseline + maxVal) / 2
  else baseline

/-- The `KEYWORDS` table of `getRewardRateForCategory`, dispatched on
the lowered category label exactly as the `if/else` chain does. -/
def keywordsFor (lowerCategory : String) : List String :=
  if jsIncludes lowerCategory "dining" then
    ["dining", "restaurant", "restaurants", "food", "eating out"]
  else if jsIncludes lowerCategory "grocery" then
    ["grocery", "groceries", "supermarket", "super market"]
  else if jsIncludes lowerCategory "travel" then
    ["travel", "airfare", "airline", "airlines", "flight", "hotel", "lodging"]
  else if jsIncludes lowerCategory "gas" then
    ["gas", "fuel", "service station", "service stations"]
  else if jsIncludes lowerCategory "transit" then
    ["transit", "rideshare", "uber", "lyft", "bus", "train", "subway", "commuter"]
  else if jsIncludes lowerCategory "online" then
    ["online", "ecommerce", "e-commerce", "amazon", "digital"]
  else if jsIncludes lowerCategory "rent" then
    ["rent", "landlord", "mortgage"]
  else if jsIncludes lowerCategory "entertainment" then
    ["entertainment", "movies", "movie", "cinema", "concert", "sports", "streaming"]
  else if jsIncludes lowerCategory "utilities" then
    ["utilities", "utility", "phone", "internet", "cable", "water", "electric"]
  else []

/-- The body of the `rewards.forEach` loop of
`getRewardRateForCategory`: fold step updating `bestRate`. -/
def rateStep (lowerCategory : String) (keywordSet : List String)
    (bestRate : ℚ) (r : Reward) : ℚ :=
  let cat := lower (r.category.getD "")
  if cat = "" then bestRate
  else if jsIncludes cat lowerCategory then
    match r.rate with
    | some rate => if bestRate < rate then rate else bestRate
    | none => bestRate
  else if !keywordSet.isEmpty && keywordSet.any (fun k => jsIncludes cat k) then
    match r.rate with
    | some rate => if bestRate < rate then rate else bestRate
    | none => bestRate
  else bestRate

/-- The catch-all test of the fallback `rewards.find`. -/
def isCatchAllEntry (r : Reward) : Bool :=
  let c := lower (r.category.getD "")
  c = "catch_all" || c = "everything" || c = "all purchases"

/-- Core of `getRewardRateForCategory` once the lowered label and its
keyword set are fixed. -/
def resolveRate (lowerCategory : String) (keywordSet : List String)
    (rewards : List Reward) : ℚ :=
  let bestRate := rewards.foldl (rateStep lowerCategory keywordSet) 0
  let bestRate :=
    if bestRate = 0 then
      match rewards.find? isCatchAllEntry with
      | some r => match r.rate with | some rate => rate | none => 0
      | none => 0
    else bestRate
  if bestRate = 0 then 1 else bestRate

/-- `getRewardRateForCategory(rewards, categoryName)`; `none` models a
non-array `rewards` value. -/
def getRewardRateForCategory (rw : Option (List Reward)) (categoryName : String) : ℚ :=
  match rw with
  | none => 1
  | some rewards =>
    if rewards.isEmpty then 1
    else resolveRate (lower categoryName) (keywordsFor (lower categoryName)) rewards

/-- The `spendMatrix` of `estimateYearlyRewards`, with gas and EV
charging merged into the single `"Gas"` bucket. -/
def spendMatrix (answers : AnswerRecord) : List (String × ℚ) :=
  [("Groceries", answers.spendGroceries.getD 0),
   ("Dining", answers.spendDining.getD 0),
   ("Travel", answers.spendTravel.getD 0),
   ("Gas", answers.spendGas.getD 0 + answers.spendEVCharging.getD 0),
   ("Transit", answers.spendTransit.getD 0),
   ("Online Shopping", answers.spendOnline.getD 0),
   ("Rent", answers.spendRent.getD 0),
   ("Entertainment", answers.spendEntertainment.getD 0),
   ("Utilities", answers.spendUtilities.getD 0),
   ("Other", answers.spendOther.getD 0)]

/-- `estimateYearlyRewards(card, answers, pointValue)`. -/
def estimateYearlyRewards (card : Card) (answers : AnswerRecord) (pointValue : ℚ) : ℚ :=
  let rewards := card.rewards.getD []
  (spendMatrix answers).foldl
    (fun total p =>
      if p.2 = 0 then total
      else total + p.2 * getRewardRateForCategory (some rewards) p.1 * pointValue)
    0

/-- `normalizeGoalTags(goals)`. -/
def normalizeGoalTags (goals : List String) : List String :=
  goals.map fun g =>
    let gL := lower g
    if jsIncludes gL "cash" then "cashback"
    else if jsIncludes gL "travel" || jsIncludes gL "miles" || jsIncludes gL "airline" then
      "points_miles"
    else if jsIncludes gL "premium" || jsIncludes gL "luxury" || jsIncludes gL "status" ||
        jsIncludes gL "high_spender" then
      "maximize_value"
    else if jsIncludes gL "build" || jsIncludes gL "starter" || jsIncludes gL "secured" then
      "credit_building"
    else if jsIncludes gL "low_interest" || jsIncludes gL "0%" || jsIncludes gL "balance" then
      "low_interest"
    else gL

/-- `scoreGoalMatch(card, answers)`; an absent or empty goal is falsy. -/
def scoreGoalMatch (card : Card) (answers : AnswerRecord) : ℚ :=
  match answers.goal with
  | none => 0
  | some goal =>
    if goal = "" then 0
    else
      let cardGoals := normalizeGoalTags (card.recommended_goals.getD [])
      if cardGoals.contains goal then 3/2
      else if (goal = "maximize_value" && cardGoals.contains "points_miles") ||
          (goal = "points_miles" && cardGoals.contains "maximize_value") ||
          (goal = "low_interest" && cardGoals.contains "low_interest") then 4/5
      else 3/10

/-- `scoreAnnualFeePreference(card, answers)` (the `no_fee` 1.2/0.1,
`small_fee`, `premium` ≥400/≥95 variant). -/
def scoreAnnualFeePreference (card : Card) (answers : AnswerRecord) : ℚ :=
  let fee := card.annual_fee.getD 0
  match answers.annualFee with
  | none => 0
  | some pref =>
    if pref = "" then 0
    else if pref = "no_fee" then (if fee = 0 then 6/5 else 1/10)
    else if pref = "small_fee" then
      (if fee = 0 then 4/5 else if 0 < fee && fee ≤ 100 then 1 else 1/5)
    else if pref = "premium" then
      (if 400 ≤ fee then 1 else if 95 ≤ fee then 7/10 else 1/5)
    else 0

/-- `scoreTravelFit(card, answers)`. -/
def scoreTravelFit (card : Card) (answers : AnswerRecord) : ℚ :=
  match answers.travelFrequency with
  | none => 0
  | some freq =>
    if freq = "" then 0
    else
      let rewards := card.rewards.getD []
      let partners := card.transfer_partners.getD []
      let foreign := lower (card.foreign_fees.getD "")
      let hasTravelRewards :=
        rewards.any fun r => jsIncludes (lower (r.category.getD "")) "travel"
      let hasPartners := !partners.isEmpty
      let noFX := jsIncludes foreign "no" || jsIncludes foreign "none" ||
        jsIncludes foreign "0%"
      let base : ℚ :=
        if freq = "rarely" then 1/5
        else if freq = "occasionally" then 3/5
        else if freq = "frequently" then 1
        else 0
      let bonus : ℚ :=
        (if hasTravelRewards then 1/2 else 0) +
        (if hasPartners then 2/5 else 0) +
        (if noFX then 2/5 else 0)
      base * (1 + bonus)

/-- Per-tag increment of the `perks.forEach` body of `scorePerks`. -/
def perkValue (benefits manual : List String) (foreign : String) (p : String) : ℚ :=
  let pL := lower p
  if pL = "lounge_access" then
    (if benefits.any (fun b => jsIncludes b "lounge" || jsIncludes b "priority pass")
     then 4/5 else 0)
  else if pL = "travel_insurance" then
    (if benefits.any (fun b => jsIncludes b "travel insurance" ||
        jsIncludes b "trip cancellation" || jsIncludes b "trip interruption")
     then 3/5 else 0)
  else if pL = "rental_car" then
    (if benefits.any (fun b => jsIncludes b "rental car" || jsIncludes b "collision damage")
     then 2/5 else 0)
  else if pL = "cell_phone" then
    (if benefits.any (fun b => jsIncludes b "cell phone" || jsIncludes b "phone protection")
     then 1/2 else 0)
  else if pL = "extended_warranty" then
    (if benefits.any (fun b => jsIncludes b "extended warranty") then 2/5 else 0)
  else if pL = "purchase_protection" then
    (if benefits.any (fun b => jsIncludes b "purchase protection") then 2/5 else 0)
  else if pL = "no_foreign_fees" then
    (if jsIncludes foreign "no" || jsIncludes foreign "none" || jsIncludes foreign "0%"
     then 3/5 else 0)
  else if pL = "credits" then
    (if benefits.any (fun b => jsIncludes b "credit" || jsIncludes b "statement credit")
     then 1/2 else 0)
  else if pL = "elite_status" then
    (if benefits.any (fun b => jsIncludes b "elite" || jsIncludes b "gold status" ||
        jsIncludes b "platinum status")
     then 1/2 else 0)
  else if pL = "cashback_portal" then
    (if manual.any (fun m => jsIncludes m "shopping portal" || jsIncludes m "cashback portal")
     then 2/5 else 0)
  else if pL = "airport_parking" then
    (if benefits.any (fun b => jsIncludes b "airport parking") then 3/10 else 0)
  else 0

/-- `scorePerks(card, answers)`: empty selection or a `"none"` tag
yields 0; otherwise per-tag sums capped at 2.0. -/
def scorePerks (card : Card) (answers : AnswerRecord) : ℚ :=
  let perks := answers.perks.getD []
  if perks.isEmpty || perks.contains "none" then 0
  else
    let benefits := (card.credits_and_benefits.getD []).map lower
    let manual := ((card.quiz_metadata.getD {}).manual_tags.getD []).map lower
    let foreign := lower (card.foreign_fees.getD "")
    min (perks.foldl (fun s p => s + perkValue benefits manual foreign p) 0) 2

/-- `scoreCardStrategy(card, answers)`. -/
def scoreCardStrategy (card : Card) (answers : AnswerRecord) : ℚ :=
  let synergy := card.pairing_synergy.getD []
  if answers.cardStrategy = some "minimalist" then
    (if synergy.isEmpty then 1 else 1/2)
  else if answers.cardStrategy = some "optimizer" then
    (if !synergy.isEmpty then 1 else 3/5)
  else if answers.cardStrategy = some "balanced" then 4/5
  else 0

/-- `scoreBusinessPreference(card, answers)`: −5 hard-penalty for a
business card against a "no" answer, default 0.1. -/
def scoreBusinessPreference (card : Card) (answers : AnswerRecord) : ℚ :=
  let isBiz := card.is_business.getD false
  if answers.businessCards = some "no" && isBiz then -5
  else if answers.businessCards = some "yes" && isBiz then 1
  else if answers.businessCards = some "open_to_both" && isBiz then 2/5
  else 1/10

/-- `scoreLowInterest(card, answers)`. -/
def scoreLowInterest (card : Card) (answers : AnswerRecord) : ℚ :=
  if answers.goal = some "low_interest" then
    let intro := lower (card.intro_apr.getD "")
    let ongoing := lower (card.ongoing_apr.getD "")
    (if jsIncludes intro "0%" then 3/2 else 0) +
    (if jsIncludes intro "balance" || jsIncludes intro "transfer" then 1 else 0) +
    (if jsIncludes ongoing "14" || jsIncludes ongoing "15" then 2/5 else 0)
  else 0

/-- `scoreAirlineHotel(card, answers, reasons)`: returns the capped
score together with the reason strings it pushes. -/
def scoreAirlineHotel (card : Card) (answers : AnswerRecord) : ℚ × List String :=
  let partners := (card.transfer_partners.getD []).map lower
  let benefits := (card.credits_and_benefits.getD []).map lower
  let airlines := answers.airline.getD []
  let hotels := answers.hotel.getD []
  let airlinePrefs := airlines.filter (fun a => a ≠ "none")
  let hotelPrefs := hotels.filter (fun h => h ≠ "none")
  let acc1 :=
    airlinePrefs.foldl
      (fun acc a =>
        let aL := lower a
        if aL = "international" then
          if !partners.isEmpty then
            (acc.1 + 1, acc.2 ++ ["Good airline transfer partners for international travel"])
          else acc
        else if partners.any (fun p => jsIncludes p aL) then
          (acc.1 + 3/2, acc.2 ++ ["Strong match for your preferred airline (" ++ a ++ ")"])
        else acc)
      ((0 : ℚ), ([] : List String))
  let acc2 :=
    hotelPrefs.foldl
      (fun acc h =>
        let hL := lower h
        let matchPartner := partners.any (fun p => jsIncludes p hL)
        let matchBenefit := benefits.any (fun b => jsIncludes b hL || jsIncludes b "free night")
        if matchPartner || matchBenefit then
          (acc.1 + 6/5, acc.2 ++ ["Strong match for your preferred hotel chain (" ++ h ++ ")"])
        else acc)
      acc1
  (min acc2.1 4, acc2.2)

/-- `scoreMerchantPreferences(card, answers, reasons)`: capped score
plus pushed reasons. -/
def scoreMerchantPreferences (card : Card) (answers : AnswerRecord) : ℚ × List String :=
  let rewards := card.rewards.getD []
  let groceryPrefs := answers.grocery.getD []
  let gasPrefs := answers.gas.getD []
  let onlinePrefs := answers.onlineShopping.getD []
  let hasRealGroceryPref := groceryPrefs.any (fun g => g ≠ "other" && g ≠ "none")
  let hasRealGasPref := gasPrefs.any (fun g => g ≠ "none")
  let hasRealOnlinePref := onlinePrefs.any (fun o => o ≠ "none")
  let acc0 : ℚ × List String := (0, [])
  let acc1 :=
    if hasRealGroceryPref then
      let rate := getRewardRateForCategory (some rewards) "Groceries"
      if 1 < rate then
        (acc0.1 + (rate - 1) * (7/10),
         acc0.2 ++ ["Great for your grocery spending (" ++ numStr rate ++ "x on groceries)"])
      else (acc0.1 - 2/5, acc0.2)
    else acc0
  let acc2 :=
    if hasRealGasPref then
      let rate := getRewardRateForCategory (some rewards) "Gas"
      if 1 < rate then
        (acc1.1 + (rate - 1) * (7/10),
         acc1.2 ++ ["Strong rewards on gas/EV spending (" ++ numStr rate ++ "x)"])
      else (acc1.1 - 3/10, acc1.2)
    else acc1
  let acc3 :=
    if hasRealOnlinePref then
      let rate := getRewardRateForCategory (some rewards) "Online Shopping"
      if 1 < rate then
        (acc2.1 + (rate - 1) * (7/10),
         acc2.2 ++ ["Well-suited for your online shopping (" ++ numStr rate ++ "x)"])
      else (acc2.1 - 3/10, acc2.2)
    else acc2
  (min acc3.1 5, acc3.2)

/-- `scoreRegionBoost(card, userStateLower)`. -/
def scoreRegionBoost (card : Card) (userStateLower : String) : ℚ :=
  if userStateLower = "" then 0
  else
    let regions := (card.available_regions.getD []).map lower
    let regionPriority := lower ((card.quiz_metadata.getD {}).region_priority.getD "")
    (if regions.contains userStateLower then 1/2 else 0) +
    (if regionPriority = userStateLower then 1/2 else 0)

/-- The user's state as the engine sees it:
`(answers.state || "").trim().toLowerCase()`. -/
def userState (answers : AnswerRecord) : String :=
  lower (jsTrim (answers.state.getD ""))

/-- The early visibility / availability returns of the card loop:
`visibility === false` and a truthy non-"active" status exclude. -/
def passesBasicFilters (card : Card) : Bool :=
  !(card.visibility == some false) &&
    (match card.availability_status with
     | none => true
     | some s => s = "" || s = "active")

/-- Lowered `available_regions` (empty when absent/non-array). -/
def regionsLower (card : Card) : List String :=
  (card.available_regions.getD []).map lower

/-- `isNational`: empty region list or a national marker. -/
def isNational (card : Card) : Bool :=
  (regionsLower card).isEmpty || (regionsLower card).contains "us" ||
    (regionsLower card).contains "united states" || (regionsLower card).contains "national"

/-- The state/national filter: with no state only national cards pass;
with a state, national cards plus cards listing that state pass. -/
def passesRegionFilter (card : Card) (st : String) : Bool :=
  if st = "" then isNational card
  else isNational card || (regionsLower card).contains st

/-- The credit-qualification filter:
`if (minScore && userScoreNumeric > 0 && userScoreNumeric + 20 < minScore) return`. -/
def passesCreditFilter (card : Card) (userScoreNumeric : ℚ) : Bool :=
  match card.min_credit_score with
  | none => true
  | some minScore =>
    !(decide (minScore ≠ 0) && decide (0 < userScoreNumeric) &&
      decide (userScoreNumeric + 20 < minScore))

/-- The effective point value for this card and user. -/
def pointValueOf (card : Card) (answers : AnswerRecord) : ℚ :=
  getPointValue answers.redemption_value card.point_value_baseline card.point_value_max

/-- `yearlyRewards` of the value calculation. -/
def yearlyRewardsOf (card : Card) (answers : AnswerRecord) : ℚ :=
  estimateYearlyRewards card answers (pointValueOf card answers)

/-- `bonusValue`: `value_estimate` when `sign_up_bonus` is present with
a numeric estimate, else 0. -/
def bonusValueOf (card : Card) : ℚ :=
  match card.sign_up_bonus with
  | some b => b.value_estimate.getD 0
  | none => 0

/-- `annualFee = card.annual_fee || 0`. -/
def cardAnnualFee (card : Card) : ℚ :=
  card.annual_fee.getD 0

/-- `netFirstYear / 100`, the monetary component added to the score. -/
def valueComponent (card : Card) (answers : AnswerRecord) : ℚ :=
  (yearlyRewardsOf card answers + bonusValueOf card - cardAnnualFee card) / 100

/-- The yearly-rewards reason string. -/
def estReason (yearlyRewards : ℚ) : String :=
  "Estimated ~$" ++ toString (jsRound yearlyRewards) ++ " in yearly rewards"

/-- The sign-up-bonus reason string. -/
def bonusReason (bonusValue : ℚ) : String :=
  "Intro bonus worth about $" ++ toString (jsRound bonusValue)

/-- The annual-fee reason string. -/
def feeReason (annualFee : ℚ) : String :=
  "Annual fee: $" ++ numStr annualFee

/-- The up-to-three monetary reasons, in push order. -/
def monetaryReasons (card : Card) (answers : AnswerRecord) : List String :=
  (if 0 < yearlyRewardsOf card answers then [estReason (yearlyRewardsOf card answers)] else []) ++
  (if 0 < bonusValueOf card then [bonusReason (bonusValueOf card)] else []) ++
  (if 0 < cardAnnualFee card then [feeReason (cardAnnualFee card)] else ["No annual fee"])

/-- The score before the final two-decimal rounding: the monetary
component plus every heuristic contribution. -/
def preRoundScore (card : Card) (answers : AnswerRecord) : ℚ :=
  valueComponent card answers +
  scoreGoalMatch card answers +
  scoreAnnualFeePreference card answers +
  scoreTravelFit card answers +
  scorePerks card answers +
  scoreCardStrategy card answers +
  scoreBusinessPreference card answers +
  scoreLowInterest card answers +
  (scoreAirlineHotel card answers).1 +
  (scoreMerchantPreferences card answers).1 +
  scoreRegionBoost card (userState answers)

/-- The result pushed for a surviving card:
`{...card, score: parseFloat(score.toFixed(2)), reasons: reasons.slice(0, 6)}`. -/
def buildResult (card : Card) (answers : AnswerRecord) : ScoreResult :=
  { card := card,
    score := round2 (preRoundScore card answers),
    reasons :=
      (monetaryReasons card answers ++ (scoreAirlineHotel card answers).2 ++
        (scoreMerchantPreferences card answers).2).take 6 }

/-- The whole per-card body of the `forEach` loop: `none` when any
filter fires, otherwise the pushed result. -/
def evalCard (answers : AnswerRecord) (card : Card) : Option ScoreResult :=
  if passesBasicFilters card && passesRegionFilter card (userState answers) &&
      passesCreditFilter card (mapCreditScore answers.creditScore) then
    some (buildResult card answers)
  else none

/-- The `results` array in input order, before sorting. -/
def preResults (cards : List Card) (answers : AnswerRecord) : List ScoreResult :=
  cards.filterMap (evalCard answers)

/-- The sort relation of `results.sort((a, b) => b.score - a.score)`:
descending by score. -/
def resultLe (a b : ScoreResult) : Bool :=
  decide (b.score ≤ a.score)

/-- `scoreCards(cards, answers)`: filter, score, then stable-sort by
score descending. -/
def scoreCards (cards : List Card) (answers : AnswerRecord) : List ScoreResult :=
  (preResults cards answers).mergeSort resultLe

/-!
Spec-side definitions.

Definitions that follow the specification's words, to be compared with
the definitions embedded from the source.
-/

/-- Spec-side yearly-rewards estimate: the sum of
amount × resolvedCategoryRate × pointValue over the spend buckets with
a positive annualized amount. -/
def specYearlyRewards (card : Card) (answers : AnswerRecord) : ℚ :=
  ((spendMatrix answers).map fun p =>
    if 0 < p.2 then
      p.2 * getRewardRateForCategory (some (card.rewards.getD [])) p.1 *
        pointValueOf card answers
    else 0).sum

/-- Spec-side matching of a reward entry against a category label:
the entry's category text contains the lowered label as a substring,
or contains one of the label's keywords. -/
def specMatches (lowerCategory : String) (keywordSet : List String) (r : Reward) : Bool :=
  jsIncludes (lower (r.category.getD "")) lowerCategory ||
    keywordSet.any (fun k => jsIncludes (lower (r.category.getD "")) k)

/-- The positive numeric rates of the entries matched by the label. -/
def posMatchedRates (lowerCategory : String) (keywordSet : List String)
    (rewards : List Reward) : List ℚ :=
  rewards.filterMap fun r =>
    match r.rate with
    | some rate =>
      if specMatches lowerCategory keywordSet r && decide (0 < rate) then some rate
      else none
    | none => none

/-- Spec-side category-rate resolver (as amended): the highest positive
numeric rate among matched entries; when there is none, the first
catch-all entry's numeric rate if present and nonzero; otherwise the
default multiplier 1. -/
def specResolve (rewards : List Reward) (label : String) : ℚ :=
  let lc := lower label
  let kws := keywordsFor lc
  let rates := posMatchedRates lc kws rewards
  if rates.isEmpty then
    match rewards.find? isCatchAllEntry with
    | some r =>
      match r.rate with
      | some rate => if rate = 0 then 1 else rate
      | none => 1
    | none => 1
  else rates.foldl max 0

/-- The ten fixed spend-category labels. -/
def tenLabels : List String :=
  ["Groceries", "Dining", "Travel", "Gas", "Transit", "Online Shopping",
   "Rent", "Entertainment", "Utilities", "Other"]

/-- The same card with `is_business` set to `true`. -/
def bizify (c : Card) : Card :=
  { c with is_business := some true }

/-!
Concrete instances used by examples, counterexamples and witnesses.
-/

/-- The card of the spec's worked example: no fee, 3x groceries,
one-cent baseline point value. -/
def exampleCard : Card :=
  { annual_fee := some 0,
    rewards := some [{ category := some "groceries", rate := some 3 }],
    point_value_baseline := some (1/100) }

/-- The answers of the spec's worked example. -/
def exampleAnswers : AnswerRecord :=
  { spendGroceries := some 500, redemption_value := some "no" }

/-- A card demanding a 700 minimum credit score. -/
def card700 : Card := { min_credit_score := some 700 }

/-- Answers with a "fair" credit score. -/
def ansFair : AnswerRecord := { creditScore := some "fair" }

/-- Answers with a "good" credit score. -/
def ansGood : AnswerRecord := { creditScore := some "good" }

/-- A card with every field absent. -/
def baseCard : Card := {}

/-- Answers declining business cards. -/
def ansNoBiz : AnswerRecord := { businessCards := some "no" }

/-- Answers selecting the "none" perks tag. -/
def perksNoneAnswers : AnswerRecord := { perks := some ["none"] }

/-- A card with a $50 annual fee. -/
def fee50Card : Card := { annual_fee := some 50 }

/-- A card with a $100 annual fee. -/
def fee100Card : Card := { annual_fee := some 100 }

/-- Answers preferring no annual fee. -/
def ansNoFee : AnswerRecord := { annualFee := some "no_fee" }

/-- A groceries reward entry with numeric rate 0. -/
def zeroRateEntry : Reward := { category := some "groceries", rate := some 0 }

/-- A regional card available in Utah only. -/
def utahCard : Card := { available_regions := some ["Utah"] }

/-- Answers locating the user in Utah. -/
def utahAnswers : AnswerRecord := { state := some "Utah" }

/-- Two cards identical up to their name, for tie-stability checks. -/
def tieCardA : Card := { name := some "a" }

/-- Second card of the tie pair. -/
def tieCardB : Card := { name := some "b" }

/-- Empty answers. -/
def emptyAnswers : AnswerRecord := {}

/-!
Helper lemmas.
-/

attribute [local semireducible] Rat.add Rat.mul Rat.inv Rat.sub

theorem buildResult_card (c : Card) (answers : AnswerRecord) :
    (buildResult c answers).card = c :=
  rfl

theorem evalCard_some_iff {answers : AnswerRecord} {c : Card} {r : ScoreResult} :
    evalCard answers c = some r ↔
      passesBasicFilters c = true ∧ passesRegionFilter c (userState answers) = true ∧
        passesCreditFilter c (mapCreditScore answers.creditScore) = true ∧
        buildResult c answers = r := by
  unfold evalCard
  split_ifs with h
  · simp only [Bool.and_eq_true] at h
    constructor
    · intro he
      exact ⟨h.1.1, h.1.2, h.2, Option.some.inj he⟩
    · rintro ⟨-, -, -, hb⟩
      rw [hb]
  · simp only [Bool.and_eq_true, not_and] at h
    constructor
    · intro he
      exact absurd he (by simp)
    · rintro ⟨h1, h2, h3, -⟩
      exact absurd h3 (h ⟨h1, h2⟩)

theorem mem_scoreCards {cards : List Card} {answers : AnswerRecord} {r : ScoreResult} :
    r ∈ scoreCards cards answers ↔ ∃ c ∈ cards, evalCard answers c = some r := by
  unfold scoreCards preResults
  rw [List.mem_mergeSort, List.mem_filterMap]

theorem resultLe_trans :
    ∀ a b c : ScoreResult, resultLe a b = true → resultLe b c = true → resultLe a c = true := by
  intro a b c hab hbc
  simp only [resultLe, decide_eq_true_eq] at *
  exact le_trans hbc hab

theorem resultLe_total : ∀ a b : ScoreResult, resultLe a b || resultLe b a := by
  intro a b
  simp only [resultLe, Bool.or_eq_true, decide_eq_true_eq]
  exact le_total _ _

theorem scoreCards_singleton (c : Card) (answers : AnswerRecord) (r : ScoreResult)
    (h : evalCard answers c = some r) : scoreCards [c] answers = [r] := by
  unfold scoreCards preResults
  rw [List.filterMap_cons, h]
  show ([r].mergeSort resultLe) = [r]
  exact List.mergeSort_singleton _

theorem scoreCards_pair (c1 c2 : Card) (answers : AnswerRecord) (r1 r2 : ScoreResult)
    (h1 : evalCard answers c1 = some r1) (h2 : evalCard answers c2 = some r2)
    (h : resultLe r1 r2 = true) : scoreCards [c1, c2] answers = [r1, r2] := by
  unfold scoreCards preResults
  rw [List.filterMap_cons, h1, List.filterMap_cons, h2, List.filterMap_nil]
  show ([r1, r2].mergeSort resultLe) = [r1, r2]
  exact List.mergeSort_of_sorted (List.pairwise_pair.mpr h)

theorem round2_sub_const (q : ℚ) : round2 (q - 51/10) = round2 q - 51/10 := by
  unfold round2
  rw [show (q - 51/10) * 100 + 1/2 = (q * 100 + 1/2) - ((510 : ℤ) : ℚ) by push_cast; ring]
  rw [Int.floor_sub_int]
  push_cast
  ring

theorem mem_take_of_mem_left {x : String} {l1 l2 : List String} {n : Nat}
    (hx : x ∈ l1) (hlen : l1.length ≤ n) : x ∈ (l1 ++ l2).take n := by
  rw [List.take_append_eq_append_take, List.take_of_length_le hlen]
  exact List.mem_append_left _ hx

theorem monetaryReasons_length_le (c : Card) (answers : AnswerRecord) :
    (monetaryReasons c answers).length ≤ 3 := by
  unfold monetaryReasons
  split_ifs <;> simp

theorem fee_mem_monetaryReasons (c : Card) (answers : AnswerRecord) :
    (if 0 < cardAnnualFee c then feeReason (cardAnnualFee c) else "No annual fee") ∈
      monetaryReasons c answers := by
  unfold monetaryReasons
  split_ifs <;> simp

theorem toList_eq_nil_iff {s : String} : s.toList = [] ↔ s = "" := by
  obtain ⟨d⟩ := s
  constructor
  · intro h
    have hd : d = [] := h
    rw [hd]
  · intro h
    rw [h]
    rfl

theorem charsContain_nil_of_ne {l : List Char} (h : l ≠ []) : charsContain [] l = false := by
  cases l with
  | nil => exact absurd rfl h
  | cons c cs => rfl

theorem jsIncludes_of_left_empty {s : String} (h : s ≠ "") : jsIncludes "" s = false := by
  unfold jsIncludes
  exact charsContain_nil_of_ne (fun hh => h (toList_eq_nil_iff.mp hh))

theorem rateStep_char {lc : String} {kws : List String} (hlc : lc ≠ "")
    (hkw : ∀ k ∈ kws, k ≠ "") (b : ℚ) (e : Reward) :
    rateStep lc kws b e =
      if specMatches lc kws e = true then
        match e.rate with
        | some rate => if b < rate then rate else b
        | none => b
      else b := by
  simp only [rateStep, specMatches]
  by_cases hcat : lower (e.category.getD "") = ""
  · have h1 : jsIncludes (lower (e.category.getD "")) lc = false := by
      rw [hcat]
      exact jsIncludes_of_left_empty hlc
    have h2 : (kws.any fun k => jsIncludes (lower (e.category.getD "")) k) = false := by
      rw [List.any_eq_false]
      intro k hk
      rw [hcat, jsIncludes_of_left_empty (hkw k hk)]
      exact Bool.false_ne_true
    rw [if_pos hcat]
    simp [h1, h2]
  · rw [if_neg hcat]
    by_cases hdir : jsIncludes (lower (e.category.getD "")) lc = true
    · simp [hdir]
    · rw [Bool.not_eq_true] at hdir
      by_cases hany : (kws.any fun k => jsIncludes (lower (e.category.getD "")) k) = true
      · have hne : kws.isEmpty = false := by
          rcases kws with _ | ⟨k, ks⟩
          · rw [List.any_nil] at hany
            exact absurd hany Bool.false_ne_true
          · rfl
        simp [hdir, hany, hne]
      · rw [Bool.not_eq_true] at hany
        simp [hdir, hany]

theorem ite_lt_eq_max (b rate : ℚ) : (if b < rate then rate else b) = max b rate := by
  split_ifs with h
  · exact (max_eq_right h.le).symm
  · exact (max_eq_left (not_lt.mp h)).symm

theorem le_foldl_max (l : List ℚ) : ∀ b : ℚ, b ≤ l.foldl max b := by
  induction l with
  | nil => intro b; exact le_refl b
  | cons x l ih =>
    intro b
    rw [List.foldl_cons]
    exact le_trans (le_max_left b x) (ih (max b x))

theorem foldl_max_pos {l : List ℚ} (hne : l ≠ []) (hall : ∀ x ∈ l, 0 < x) :
    0 < l.foldl max 0 := by
  cases l with
  | nil => exact absurd rfl hne
  | cons x l =>
    rw [List.foldl_cons]
    calc (0 : ℚ) < x := hall x (by simp)
    _ ≤ max 0 x := le_max_right _ _
    _ ≤ _ := le_foldl_max l (max 0 x)

theorem posMatchedRates_pos {lc : String} {kws : List String} {l : List Reward} :
    ∀ x ∈ posMatchedRates lc kws l, 0 < x := by
  intro x hx
  unfold posMatchedRates at hx
  rw [List.mem_filterMap] at hx
  obtain ⟨e, _, hsome⟩ := hx
  rcases hrt : e.rate with _ | rate <;> rw [hrt] at hsome
  · simp at hsome
  · by_cases h : (specMatches lc kws e && decide (0 < rate)) = true
    · simp only [h, if_true] at hsome
      rw [Bool.and_eq_true, decide_eq_true_eq] at h
      have hx2 : rate = x := Option.some.inj hsome
      exact hx2 ▸ h.2
    · simp [h] at hsome

theorem posMatchedRates_cons {lc : String} {kws : List String} (e : Reward) (l : List Reward) :
    posMatchedRates lc kws (e :: l) =
      (match e.rate with
       | some rate =>
         if specMatches lc kws e && decide (0 < rate) then some rate else none
       | none => none).toList ++ posMatchedRates lc kws l := by
  unfold posMatchedRates
  simp only [List.filterMap_cons]
  rcases hrt : e.rate with _ | rate
  · simp [hrt]
  · by_cases h : (specMatches lc kws e && decide (0 < rate)) = true
    · simp [hrt, h]
    · simp [hrt, h]

theorem foldl_rateStep_eq {lc : String} {kws : List String} (hlc : lc ≠ "")
    (hkw : ∀ k ∈ kws, k ≠ "") :
    ∀ (l : List Reward) (b : ℚ), 0 ≤ b →
      l.foldl (rateStep lc kws) b = (posMatchedRates lc kws l).foldl max b := by
  intro l
  induction l with
  | nil => intro b _; rfl
  | cons e l ih =>
    intro b hb
    rw [List.foldl_cons, rateStep_char hlc hkw, posMatchedRates_cons]
    by_cases hm : specMatches lc kws e = true
    · rw [if_pos hm]
      rcases hrt : e.rate with _ | rate
      · simp only [hrt, Option.toList_none, List.nil_append]
        exact ih b hb
      · by_cases hpos : 0 < rate
        · have hcond : (specMatches lc kws e && decide (0 < rate)) = true := by
            rw [hm, decide_eq_true hpos]
            rfl
          simp only [hrt, hcond, if_true, Option.toList_some, List.singleton_append]
          rw [List.foldl_cons, ite_lt_eq_max]
          exact ih (max b rate) (le_trans hb (le_max_left _ _))
        · have hcond : (specMatches lc kws e && decide (0 < rate)) = false := by
            rw [decide_eq_false hpos]
            exact Bool.and_false _
          have hstep : (if b < rate then rate else b) = b :=
            if_neg (not_lt.mpr (le_trans (not_lt.mp hpos) hb))
          simp only [hrt, hcond, Bool.false_eq_true, if_false, Option.toList_none,
            List.nil_append, hstep]
          exact ih b hb
    · rw [if_neg hm]
      rw [Bool.not_eq_true] at hm
      rcases hrt : e.rate with _ | rate
      · simp only [hrt, Option.toList_none, List.nil_append]
        exact ih b hb
      · have hcond : (specMatches lc kws e && decide (0 < rate)) = false := by
          rw [hm]
          rfl
        simp only [hrt, hcond, Bool.false_eq_true, if_false, Option.toList_none,
          List.nil_append]
        exact ih b hb

theorem getRate_eq_spec (label : String) (hlc : lower label ≠ "")
    (hkw : ∀ k ∈ keywordsFor (lower label), k ≠ "") (rewards : List Reward) :
    getRewardRateForCategory (some rewards) label = specResolve rewards label := by
  simp only [getRewardRateForCategory, specResolve]
  by_cases hre : rewards.isEmpty
  · have he : rewards = [] := List.isEmpty_iff.mp hre
    subst he
    rfl
  · rw [if_neg hre]
    simp only [resolveRate]
    rw [foldl_rateStep_eq hlc hkw rewards 0 le_rfl]
    by_cases hp : (posMatchedRates (lower label) (keywordsFor (lower label)) rewards).isEmpty
    · have he : posMatchedRates (lower label) (keywordsFor (lower label)) rewards = [] :=
        List.isEmpty_iff.mp hp
      rw [he]
      rcases hfind : rewards.find? isCatchAllEntry with _ | r
      · simp [hfind]
      · rcases hrt : r.rate with _ | rate
        · simp [hfind, hrt]
        · by_cases h0 : rate = 0 <;> simp [hfind, hrt, h0]
    · rw [if_neg hp]
      have hpos : 0 <
          (posMatchedRates (lower label) (keywordsFor (lower label)) rewards).foldl max 0 :=
        foldl_max_pos (fun he => hp (by rw [he]; rfl)) posMatchedRates_pos
      rw [if_neg hpos.ne', if_neg hpos.ne']

/-!
Claim theorems.
-/

/-- C7 counterexample: a groceries entry whose numeric rate is 0 is
matched by the label "Groceries", yet the resolver returns the default
1 rather than the highest numeric matched rate 0 — so nonpositive
numeric rates of matched entries are not returned as the claim
states. -/
theorem c7_rate_resolver_counterexample :
    getRewardRateForCategory (some [zeroRateEntry]) "Groceries" = 1 ∧
    specMatches (lower "Groceries") (keywordsFor (lower "Groceries")) zeroRateEntry = true ∧
    zeroRateEntry.rate = some 0 ∧ (1 : ℚ) ≠ 0 := by
  refine ⟨by decide, by decide, rfl, by norm_num⟩

/-- C7 amended: for each of the ten fixed labels the resolver is total
and returns the highest positive numeric rate among entries matched by
case-insensitive substring of the label or by one of the label's
keywords; entries with nonpositive or non-numeric rates are ignored,
and when no matched entry has a positive numeric rate it falls back to
the designated catch-all entry's nonzero numeric rate, else to the
default multiplier 1. -/
theorem c7_rate_resolver_amended (rewards : List Reward) (label : String)
    (hl : label ∈ tenLabels) :
    getRewardRateForCategory (some rewards) label = specResolve rewards label := by
  fin_cases hl <;> exact getRate_eq_spec _ (by decide) (by decide) rewards

/-- C7 witness: the amended resolver characterization at the
counterexample input. -/
theorem c7_rate_resolver_amended_witness :
    getRewardRateForCategory (some [zeroRateEntry]) "Groceries" =
      specResolve [zeroRateEntry] "Groceries" :=
  c7_rate_resolver_amended [zeroRateEntry] "Groceries" (by decide)

/-- C5 counterexample: with the perks answer ["none"], the perks
heuristic contributes 0, not the flat 0.2 the claim states. -/
theorem c5_perks_none_counterexample :
    perksNoneAnswers.perks = some ["none"] ∧
    scorePerks baseCard perksNoneAnswers = 0 ∧ (0 : ℚ) ≠ 1/5 := by
  refine ⟨rfl, by decide, by norm_num⟩

/-- C5 amended: for every card and every answer record whose perks
list contains the tag "none", the perks heuristic contributes a flat 0
to that card's score. -/
theorem c5_perks_none_amended (c : Card) (answers : AnswerRecord) (l : List String)
    (hp : answers.perks = some l) (hn : "none" ∈ l) :
    scorePerks c answers = 0 := by
  unfold scorePerks
  rw [hp]
  simp [hn]

/-- C5 witness: the amended perks rule at a concrete card and answer
record. -/
theorem c5_perks_none_amended_witness : scorePerks baseCard perksNoneAnswers = 0 :=
  c5_perks_none_amended baseCard perksNoneAnswers ["none"] rfl (by decide)

/-- C6 counterexample: with preference "no_fee", two otherwise-empty
cards with fees 50 < 100 receive the same contribution 0.1, so the
contribution is not strictly decreasing in the fee. -/
theorem c6_fee_monotonicity_counterexample :
    fee50Card.annual_fee = some 50 ∧ fee100Card.annual_fee = some 100 ∧
    scoreAnnualFeePreference fee100Card ansNoFee = scoreAnnualFeePreference fee50Card ansNoFee ∧
    ¬(scoreAnnualFeePreference fee100Card ansNoFee <
      scoreAnnualFeePreference fee50Card ansNoFee) := by
  refine ⟨rfl, rfl, by decide, by decide⟩

/-- C6 amended: with preference "no_fee" the fee contribution is
non-increasing in the (nonnegative) annual fee — 1.2 at fee 0 and a
flat 0.1 at every positive fee — and the decrease is strict exactly
when the smaller fee is 0. -/
theorem c6_fee_monotonicity_amended (c : Card) (answers : AnswerRecord) (f1 f2 : ℚ)
    (hpref : answers.annualFee = some "no_fee") (h0 : 0 ≤ f1) (hlt : f1 < f2) :
    scoreAnnualFeePreference { c with annual_fee := some f2 } answers ≤
      scoreAnnualFeePreference { c with annual_fee := some f1 } answers ∧
    (f1 = 0 →
      scoreAnnualFeePreference { c with annual_fee := some f2 } answers <
        scoreAnnualFeePreference { c with annual_fee := some f1 } answers) := by
  have hf2 : f2 ≠ 0 := (lt_of_le_of_lt h0 hlt).ne'
  unfold scoreAnnualFeePreference
  rw [hpref]
  by_cases h1 : f1 = 0
  · subst h1
    simp [hf2]
    norm_num
  · simp [hf2, h1]

/-- C6 witness: the amended monotonicity at fees 0 and 100. -/
theorem c6_fee_monotonicity_amended_witness :
    scoreAnnualFeePreference { baseCard with annual_fee := some (100 : ℚ) } ansNoFee ≤
      scoreAnnualFeePreference { baseCard with annual_fee := some (0 : ℚ) } ansNoFee ∧
    ((0 : ℚ) = 0 →
      scoreAnnualFeePreference { baseCard with annual_fee := some (100 : ℚ) } ansNoFee <
        scoreAnnualFeePreference { baseCard with annual_fee := some (0 : ℚ) } ansNoFee) :=
  c6_fee_monotonicity_amended baseCard ansNoFee 0 100 rfl le_rfl (by norm_num)

/-- C3: for a card with numeric minimum credit score and an answer
whose creditScore maps to a positive score under the fixed table, the
credit filter excludes the card iff userScore + 20 < minScore; a
700-minimum card is excluded for "fair" (630) and kept for "good"
(700). -/
theorem c3_credit_filter (c : Card) (answers : AnswerRecord) (m u : ℚ)
    (hm : c.min_credit_score = some m) (_hu : mapCreditScore answers.creditScore = u)
    (hpos : 0 < u) :
    (passesCreditFilter c u = false ↔ u + 20 < m) ∧
    mapCreditScore (some "fair") = 630 ∧ mapCreditScore (some "good") = 700 ∧
    scoreCards [card700] ansFair = [] ∧ (scoreCards [card700] ansGood).length = 1 := by
  refine ⟨?_, rfl, rfl, ?_, ?_⟩
  · unfold passesCreditFilter
    rw [hm]
    simp only [Bool.not_eq_false', Bool.and_eq_true, decide_eq_true_eq, ne_eq,
      Bool.not_eq_true', decide_eq_false_iff_not, not_and, not_lt]
    constructor
    · exact fun h => h.2
    · intro h
      refine ⟨⟨?_, hpos⟩, h⟩
      intro h0
      rw [h0] at h
      linarith
  · unfold scoreCards
    have h : preResults [card700] ansFair = [] := by decide
    rw [h, List.mergeSort_nil]
  · rw [scoreCards_singleton card700 ansGood (buildResult card700 ansGood) (by decide)]
    rfl

/-- C3 witness: the filter rule instantiated at the 700-minimum card
with the "fair" answer record. -/
theorem c3_credit_filter_witness :
    (passesCreditFilter card700 (630 : ℚ) = false ↔ (630 : ℚ) + 20 < 700) ∧
    mapCreditScore (some "fair") = 630 ∧ mapCreditScore (some "good") = 700 ∧
    scoreCards [card700] ansFair = [] ∧ (scoreCards [card700] ansGood).length = 1 :=
  c3_credit_filter card700 ansFair 700 630 rfl rfl (by norm_num)

/-- C2: a card is national iff its lowered region list is empty or
holds a national marker; with no user state a non-national card never
reaches the output; with a state, a card passing the visibility,
availability and credit filters appears in the output iff it is
national or lists the user's state (case-insensitively). -/
theorem c2_region_eligibility (cards : List Card) (answers : AnswerRecord) (c : Card) :
    (isNational c = true ↔
      (regionsLower c = [] ∨ "us" ∈ regionsLower c ∨ "united states" ∈ regionsLower c ∨
        "national" ∈ regionsLower c)) ∧
    (userState answers = "" → isNational c = false →
      ∀ r ∈ scoreCards cards answers, r.card ≠ c) ∧
    (userState answers ≠ "" → c ∈ cards → passesBasicFilters c = true →
      passesCreditFilter c (mapCreditScore answers.creditScore) = true →
      ((∃ r ∈ scoreCards cards answers, r.card = c) ↔
        (isNational c = true ∨ userState answers ∈ regionsLower c))) := by
  refine ⟨?_, ?_, ?_⟩
  · unfold isNational
    simp [List.isEmpty_iff, or_assoc]
  · intro hst hnat r hr hcr
    obtain ⟨c2, _, he⟩ := mem_scoreCards.mp hr
    obtain ⟨_, hreg, -, hbr⟩ := evalCard_some_iff.mp he
    have hc2 : c2 = c := by rw [← hcr, ← hbr, buildResult_card]
    subst hc2
    unfold passesRegionFilter at hreg
    rw [if_pos hst] at hreg
    exact absurd hreg (by rw [hnat]; exact Bool.false_ne_true)
  · intro hst hc hb hcr
    constructor
    · rintro ⟨r, hr, hcard⟩
      obtain ⟨c2, _, he⟩ := mem_scoreCards.mp hr
      obtain ⟨-, hreg, -, hbr⟩ := evalCard_some_iff.mp he
      have hc2 : c2 = c := by rw [← hcard, ← hbr, buildResult_card]
      subst hc2
      unfold passesRegionFilter at hreg
      rw [if_neg hst] at hreg
      rw [Bool.or_eq_true] at hreg
      rcases hreg with h | h
      · exact Or.inl h
      · exact Or.inr (by simpa using h)
    · intro h
      have hreg : passesRegionFilter c (userState answers) = true := by
        unfold passesRegionFilter
        rw [if_neg hst, Bool.or_eq_true]
        rcases h with h | h
        · exact Or.inl h
        · exact Or.inr (by simpa using h)
      refine ⟨buildResult c answers, ?_, buildResult_card c answers⟩
      exact mem_scoreCards.mpr ⟨c, hc, evalCard_some_iff.mpr ⟨hb, hreg, hcr, rfl⟩⟩

/-- C2 witness: the appearance rule at a Utah-only card and a Utah
user. -/
theorem c2_region_eligibility_witness :
    ∃ r ∈ scoreCards [utahCard] utahAnswers, r.card = utahCard :=
  ((c2_region_eligibility [utahCard] utahAnswers utahCard).2.2 (by decide)
      (by simp) (by decide) (by decide)).mpr (Or.inr (by decide))

/-- C9: scoring is pure — every output result carries its source
card's fields unchanged: it arises from some input card through the
per-card evaluation, and its card component equals that input card. -/
theorem c9_result_preserves_card (cards : List Card) (answers : AnswerRecord) :
    ∀ r ∈ scoreCards cards answers, ∃ c ∈ cards, evalCard answers c = some r ∧ r.card = c := by
  intro r hr
  obtain ⟨c, hc, he⟩ := mem_scoreCards.mp hr
  refine ⟨c, hc, he, ?_⟩
  obtain ⟨-, -, -, hbr⟩ := evalCard_some_iff.mp he
  rw [← hbr, buildResult_card]

/-- C9 witness: applied to the single output of the worked example. -/
theorem c9_result_preserves_card_witness :
    ∃ c ∈ [exampleCard], evalCard exampleAnswers c =
      some (buildResult exampleCard exampleAnswers) ∧
      (buildResult exampleCard exampleAnswers).card = c :=
  c9_result_preserves_card [exampleCard] exampleAnswers
    (buildResult exampleCard exampleAnswers)
    (by rw [scoreCards_singleton exampleCard exampleAnswers (buildResult exampleCard exampleAnswers) (by decide)]
        exact List.mem_singleton.mpr rfl)

/-- C10: every output result has a nonempty reasons list — among its
reasons there is always either the "No annual fee" reason or an
"Annual fee: $…" reason, because the monetary reasons are appended
first and survive the truncation to six. -/
theorem c10_reasons_nonempty (cards : List Card) (answers : AnswerRecord) :
    ∀ r ∈ scoreCards cards answers, r.reasons ≠ [] ∧
      ("No annual fee" ∈ r.reasons ∨ ∃ f : ℚ, 0 < f ∧ feeReason f ∈ r.reasons) := by
  intro r hr
  obtain ⟨c, _, he⟩ := mem_scoreCards.mp hr
  obtain ⟨-, -, -, hbr⟩ := evalCard_some_iff.mp he
  have hmem : (if 0 < cardAnnualFee c then feeReason (cardAnnualFee c) else "No annual fee") ∈
      r.reasons := by
    rw [← hbr]
    show _ ∈ (monetaryReasons c answers ++ (scoreAirlineHotel c answers).2 ++
      (scoreMerchantPreferences c answers).2).take 6
    rw [List.append_assoc]
    exact mem_take_of_mem_left (fee_mem_monetaryReasons c answers)
      (le_trans (monetaryReasons_length_le c answers) (by norm_num))
  refine ⟨List.ne_nil_of_mem hmem, ?_⟩
  by_cases hf : 0 < cardAnnualFee c
  · exact Or.inr ⟨cardAnnualFee c, hf, by rwa [if_pos hf] at hmem⟩
  · exact Or.inl (by rwa [if_neg hf] at hmem)

/-- C10 witness: applied to the single output of the worked example. -/
theorem c10_reasons_nonempty_witness :
    (buildResult exampleCard exampleAnswers).reasons ≠ [] ∧
    ("No annual fee" ∈ (buildResult exampleCard exampleAnswers).reasons ∨
      ∃ f : ℚ, 0 < f ∧ feeReason f ∈ (buildResult exampleCard exampleAnswers).reasons) :=
  c10_reasons_nonempty [exampleCard] exampleAnswers
    (buildResult exampleCard exampleAnswers)
    (by rw [scoreCards_singleton exampleCard exampleAnswers (buildResult exampleCard exampleAnswers) (by decide)]
        exact List.mem_singleton.mpr rfl)

/-- C8: the output is sorted by score descending; results with equal
scores keep the relative order they had before sorting (the input
order of their cards); every result's reasons list has at most six
entries. -/
theorem c8_sort_and_reason_cap (cards : List Card) (answers : AnswerRecord) :
    (scoreCards cards answers).Pairwise (fun a b => b.score ≤ a.score) ∧
    (∀ a b : ScoreResult, a.score = b.score → [a, b].Sublist (preResults cards answers) →
      [a, b].Sublist (scoreCards cards answers)) ∧
    (∀ r ∈ scoreCards cards answers, r.reasons.length ≤ 6) := by
  refine ⟨?_, ?_, ?_⟩
  · have h := List.sorted_mergeSort resultLe_trans resultLe_total (preResults cards answers)
    unfold scoreCards
    exact h.imp (fun hab => by simpa [resultLe, decide_eq_true_eq] using hab)
  · intro a b hab hsub
    unfold scoreCards
    exact List.pair_sublist_mergeSort resultLe_trans resultLe_total
      (by simp [resultLe, hab]) hsub
  · intro r hr
    obtain ⟨c, _, he⟩ := mem_scoreCards.mp hr
    obtain ⟨-, -, -, hbr⟩ := evalCard_some_iff.mp he
    rw [← hbr]
    show ((monetaryReasons c answers ++ (scoreAirlineHotel c answers).2 ++
      (scoreMerchantPreferences c answers).2).take 6).length ≤ 6
    rw [List.length_take]
    exact Nat.min_le_left _ _

/-- C8 witness: stability applied to two equal-scoring cards that
differ only in their name. -/
theorem c8_sort_and_reason_cap_witness :
    [buildResult tieCardA emptyAnswers, buildResult tieCardB emptyAnswers].Sublist
      (scoreCards [tieCardA, tieCardB] emptyAnswers) :=
  (c8_sort_and_reason_cap [tieCardA, tieCardB] emptyAnswers).2.1
    (buildResult tieCardA emptyAnswers) (buildResult tieCardB emptyAnswers)
    (by decide)
    (by have h : preResults [tieCardA, tieCardB] emptyAnswers =
          [buildResult tieCardA emptyAnswers, buildResult tieCardB emptyAnswers] := by decide
        rw [h])

/-- C4 counterexample: against a "no" business answer, an empty card
scores 0.1 and its business twin scores −5 — both appear in the
output, but the gap is 5.1, not exactly 5. -/
theorem c4_business_gap_counterexample :
    (scoreCards [baseCard, bizify baseCard] ansNoBiz).map (fun r => r.score) = [1/10, -5] ∧
    (1 : ℚ)/10 - (-5) = 51/10 ∧ (51 : ℚ)/10 ≠ 5 := by
  refine ⟨?_, by norm_num, by norm_num⟩
  rw [scoreCards_pair baseCard (bizify baseCard) ansNoBiz (buildResult baseCard ansNoBiz)
    (buildResult (bizify baseCard) ansNoBiz) (by decide) (by decide) (by decide)]
  decide

/-- C4 amended: with businessCards = "no", turning is_business on in
an otherwise-identical card never filters it out and lowers its final
score by exactly 5.1 (the −5 business penalty replacing the 0.1
default); both results appear when both cards are in the input. -/
theorem c4_business_gap_amended (c : Card) (answers : AnswerRecord) (r : ScoreResult)
    (hno : answers.businessCards = some "no") (hbase : c.is_business.getD false = false)
    (hr : evalCard answers c = some r) :
    evalCard answers (bizify c) =
      some { card := bizify c, score := r.score - 51/10, reasons := r.reasons } ∧
    r ∈ scoreCards [c, bizify c] answers ∧
    { card := bizify c, score := r.score - 51/10, reasons := r.reasons } ∈
      scoreCards [c, bizify c] answers := by
  obtain ⟨hb1, hb2, hb3, hbr⟩ := evalCard_some_iff.mp hr
  have hbiz1 : scoreBusinessPreference c answers = 1/10 := by
    unfold scoreBusinessPreference
    rw [hno, hbase]
    simp
  have hbiz2 : scoreBusinessPreference (bizify c) answers = -5 := by
    unfold scoreBusinessPreference bizify
    rw [hno]
    simp
  have hpre : preRoundScore (bizify c) answers = preRoundScore c answers - 51/10 := by
    unfold preRoundScore
    have e1 : valueComponent (bizify c) answers = valueComponent c answers := rfl
    have e2 : scoreGoalMatch (bizify c) answers = scoreGoalMatch c answers := rfl
    have e3 : scoreAnnualFeePreference (bizify c) answers =
      scoreAnnualFeePreference c answers := rfl
    have e4 : scoreTravelFit (bizify c) answers = scoreTravelFit c answers := rfl
    have e5 : scorePerks (bizify c) answers = scorePerks c answers := rfl
    have e6 : scoreCardStrategy (bizify c) answers = scoreCardStrategy c answers := rfl
    have e7 : scoreLowInterest (bizify c) answers = scoreLowInterest c answers := rfl
    have e8 : (scoreAirlineHotel (bizify c) answers).1 = (scoreAirlineHotel c answers).1 := rfl
    have e9 : (scoreMerchantPreferences (bizify c) answers).1 =
      (scoreMerchantPreferences c answers).1 := rfl
    have e10 : scoreRegionBoost (bizify c) (userState answers) =
      scoreRegionBoost c (userState answers) := rfl
    rw [e1, e2, e3, e4, e5, e6, e7, e8, e9, e10, hbiz1, hbiz2]
    ring
  have hbuild : buildResult (bizify c) answers =
      { card := bizify c, score := r.score - 51/10, reasons := r.reasons } := by
    unfold buildResult
    have er : (monetaryReasons (bizify c) answers ++ (scoreAirlineHotel (bizify c) answers).2 ++
        (scoreMerchantPreferences (bizify c) answers).2).take 6 = r.reasons := by
      rw [← hbr]
      rfl
    have es : round2 (preRoundScore (bizify c) answers) = r.score - 51/10 := by
      rw [hpre, round2_sub_const, ← hbr]
      rfl
    rw [er, es]
  have hev : evalCard answers (bizify c) =
      some { card := bizify c, score := r.score - 51/10, reasons := r.reasons } := by
    rw [← hbuild]
    apply evalCard_some_iff.mpr
    exact ⟨hb1, hb2, hb3, rfl⟩
  refine ⟨hev, ?_, ?_⟩
  · exact mem_scoreCards.mpr ⟨c, by simp, hr⟩
  · exact mem_scoreCards.mpr ⟨bizify c, by simp, hev⟩

/-- C4 witness: the amended score gap at the empty card. -/
theorem c4_business_gap_amended_witness :
    evalCard ansNoBiz (bizify baseCard) =
      some { card := bizify baseCard,
             score := (buildResult baseCard ansNoBiz).score - 51/10,
             reasons := (buildResult baseCard ansNoBiz).reasons } ∧
    buildResult baseCard ansNoBiz ∈ scoreCards [baseCard, bizify baseCard] ansNoBiz ∧
    { card := bizify baseCard,
      score := (buildResult baseCard ansNoBiz).score - 51/10,
      reasons := (buildResult baseCard ansNoBiz).reasons } ∈
      scoreCards [baseCard, bizify baseCard] ansNoBiz :=
  c4_business_gap_amended baseCard ansNoBiz (buildResult baseCard ansNoBiz) rfl rfl (by decide)

theorem foldl_spend_eq_sum (rw : List Reward) (pv : ℚ) :
    ∀ (L : List (String × ℚ)) (t : ℚ), (∀ p ∈ L, 0 ≤ p.2) →
      L.foldl
        (fun total p =>
          if p.2 = 0 then total
          else total + p.2 * getRewardRateForCategory (some rw) p.1 * pv) t =
      t + (L.map fun p =>
        if 0 < p.2 then p.2 * getRewardRateForCategory (some rw) p.1 * pv else 0).sum := by
  intro L
  induction L with
  | nil => intro t _; simp
  | cons a L ih =>
    intro t hL
    have ha : 0 ≤ a.2 := hL a (by simp)
    have hrest : ∀ p ∈ L, 0 ≤ p.2 := fun p hp => hL p (by simp [hp])
    rw [List.foldl_cons, List.map_cons, List.sum_cons]
    by_cases hz : a.2 = 0
    · rw [if_pos hz, if_neg (by rw [hz]; exact lt_irrefl 0), ih t hrest]
      ring
    · have hpos : 0 < a.2 := lt_of_le_of_ne ha (Ne.symm hz)
      rw [if_neg hz, if_pos hpos, ih _ hrest]
      ring

/-- C1 counterexample: on the spec's worked example the yearly-rewards
reason text is "Estimated ~$15 in yearly rewards", so the claim's
quoted reason "Estimated $15 in yearly rewards" appears in no result's
reasons. -/
theorem c1_reason_text_counterexample :
    (scoreCards [exampleCard] exampleAnswers).map (fun r => r.reasons) =
      [["Estimated ~$15 in yearly rewards", "No annual fee"]] ∧
    ∀ r ∈ scoreCards [exampleCard] exampleAnswers,
      "Estimated $15 in yearly rewards" ∉ r.reasons := by
  rw [scoreCards_singleton exampleCard exampleAnswers (buildResult exampleCard exampleAnswers) (by decide)]
  refine ⟨by decide, by decide⟩

/-- C1 amended: for every card and answers with nonnegative annualized
spend amounts, the monetary score contribution equals
(yearlyRewards + signUpBonusValue − annualFee) / 100, where
yearlyRewards sums amount × resolvedCategoryRate × pointValue over the
spend buckets with positive amounts and the bonus and fee default to 0
when absent; on the worked example the estimate is 15, the
contribution 0.15, and the reasons include
"Estimated ~$15 in yearly rewards" and "No annual fee". -/
theorem c1_value_component_amended (card : Card) (answers : AnswerRecord)
    (h : ∀ p ∈ spendMatrix answers, 0 ≤ p.2) :
    valueComponent card answers =
      (specYearlyRewards card answers + bonusValueOf card - cardAnnualFee card) / 100 ∧
    (card.sign_up_bonus = none → bonusValueOf card = 0) ∧
    (card.annual_fee = none → cardAnnualFee card = 0) ∧
    yearlyRewardsOf exampleCard exampleAnswers = 15 ∧
    valueComponent exampleCard exampleAnswers = 15/100 ∧
    (∀ r ∈ scoreCards [exampleCard] exampleAnswers,
      "Estimated ~$15 in yearly rewards" ∈ r.reasons ∧ "No annual fee" ∈ r.reasons) := by
  refine ⟨?_, ?_, ?_, by decide, by decide, ?_⟩
  · have key : yearlyRewardsOf card answers = specYearlyRewards card answers := by
      unfold yearlyRewardsOf estimateYearlyRewards specYearlyRewards
      rw [foldl_spend_eq_sum (card.rewards.getD []) (pointValueOf card answers)
        (spendMatrix answers) 0 h]
      ring
    unfold valueComponent
    rw [key]
  · intro hb
    unfold bonusValueOf
    rw [hb]
  · intro hf
    unfold cardAnnualFee
    rw [hf]
    rfl
  · rw [scoreCards_singleton exampleCard exampleAnswers (buildResult exampleCard exampleAnswers) (by decide)]
    decide

/-- C1 witness: the amended contribution formula at the worked
example. -/
theorem c1_value_component_amended_witness :
    valueComponent exampleCard exampleAnswers =
      (specYearlyRewards exampleCard exampleAnswers + bonusValueOf exampleCard -
        cardAnnualFee exampleCard) / 100 :=
  (c1_value_component_amended exampleCard exampleAnswers (by decide)).1

end Rewrds
